import Mathlib

/-!
# Verification of the Pricing Recommendation Engine (src/app.py)

Shallow embedding of the deterministic pricing engine in `src/app.py`
(lines 44–169).  Python/numpy floats are modelled by `ℚ`; a CSV cell that
is absent or NaN is modelled by `none : Option ℚ`, matching the
`row.get(col, default)` / `pd.isna` idioms of the source.  Rational
division by zero yields the junk value `0` in Lean, whereas numpy float
division by zero yields `inf`/`NaN`; theorems that depend on a divisor
being nonzero therefore carry the corresponding hypothesis explicitly.
-/

namespace PricingTool

/-- One metrics row, as read by `app.py` via `row.get(...)`.  Every field
that the engine reads is optional: `none` models an absent column or a
NaN cell; the per-field defaults applied by `row.get` live in the
derived definitions below, exactly as in the source. -/
structure MetricsRow where
  cost : Option ℚ
  fba_fee : Option ℚ
  storage_fee : Option ℚ
  handling_cost : Option ℚ
  minimum_acceptable_margin_pct : Option ℚ
  target_gross_margin_pct : Option ℚ
  current_price : Option ℚ
  days_of_supply : Option ℚ
  avg_competitor_price : Option ℚ
  units_shipped_t90 : Option ℚ
  returns_t90 : Option ℚ
  acos_clicks_14d : Option ℚ
deriving DecidableEq

/-- `app.py` lines 44–49: `total_cost = Cost + FBA_Fee + Storage_Fee +
Handling_Cost`, each defaulting to 0. -/
def total_cost (r : MetricsRow) : ℚ :=
  r.cost.getD 0 + r.fba_fee.getD 0 + r.storage_fee.getD 0 + r.handling_cost.getD 0

/-- `app.py` line 51: `min_margin = row.get("Minimum_Acceptable_Margin_%", 10) / 100`. -/
def min_margin (r : MetricsRow) : ℚ :=
  r.minimum_acceptable_margin_pct.getD 10 / 100

/-- `app.py` line 52: `target_margin = row.get("Target_Gross_Margin_%", 25) / 100`. -/
def target_margin (r : MetricsRow) : ℚ :=
  r.target_gross_margin_pct.getD 25 / 100

/-- `app.py` line 54: `current_price = row.get("Current_Price", 0)`. -/
def current_price (r : MetricsRow) : ℚ :=
  r.current_price.getD 0

/-- `app.py` line 55: `current_margin = (current_price - total_cost) /
current_price if current_price else 0` (Python truthiness: any nonzero
price selects the formula). -/
def current_margin (r : MetricsRow) : ℚ :=
  if current_price r = 0 then 0
  else (current_price r - total_cost r) / current_price r

/-- `app.py` lines 63–65: `return_risk_load = (returns_t90 /
(units_shipped_t90 + 1)) * total_cost`, both counts defaulting to 0. -/
def return_risk_load (r : MetricsRow) : ℚ :=
  r.returns_t90.getD 0 / (r.units_shipped_t90.getD 0 + 1) * total_cost r

/-- `app.py` line 72: `min_price_allowed = total_cost / (1 - min_margin)`. -/
def min_price_allowed (r : MetricsRow) : ℚ :=
  total_cost r / (1 - min_margin r)

/-- `app.py` line 73: `target_price = total_cost / (1 - target_margin)`. -/
def target_price (r : MetricsRow) : ℚ :=
  total_cost r / (1 - target_margin r)

/-- `app.py` lines 78–85: inventory signal from `days_of_supply`
(absent → 0, `< 20` → +0.05, `> 90` → −0.05, otherwise 0). -/
def inventory_signal (r : MetricsRow) : ℚ :=
  match r.days_of_supply with
  | none => 0
  | some d => if d < 20 then 1/20 else if 90 < d then -(1/20) else 0

/-- `app.py` lines 90–93: `competitor_target = 0.7 * Avg_Competitor_Price
+ 0.3 * current_price` when the competitor average is present, else
`current_price`. -/
def competitor_target (r : MetricsRow) : ℚ :=
  match r.avg_competitor_price with
  | some a => 7/10 * a + 3/10 * current_price r
  | none => current_price r

/-- `app.py` lines 98–105: ads signal from `acosClicks14d`
(absent → 0, `> 40` → +0.05, `< 20` → −0.05, otherwise 0). -/
def ads_signal (r : MetricsRow) : ℚ :=
  match r.acos_clicks_14d with
  | none => 0
  | some a => if 40 < a then 1/20 else if a < 20 then -(1/20) else 0

/-- `app.py` line 110: `risk_signal = +0.05 if return_risk_load > 0.2 *
total_cost else 0`. -/
def risk_signal (r : MetricsRow) : ℚ :=
  if 1/5 * total_cost r < return_risk_load r then 1/20 else 0

/-- `app.py` line 115: `base = max(target_price, min_price_allowed)`. -/
def base (r : MetricsRow) : ℚ :=
  max (target_price r) (min_price_allowed r)

/-- `app.py` lines 120–123: the base price with the three multiplicative
signals applied in the fixed order inventory, ads, risk. -/
def signal_price (r : MetricsRow) : ℚ :=
  base r * (1 + inventory_signal r) * (1 + ads_signal r) * (1 + risk_signal r)

/-- `app.py` line 125: `recommended_price = 0.6 * recommended_price +
0.4 * competitor_target` (the competitor blend, before the floor). -/
def blended_price (r : MetricsRow) : ℚ :=
  6/10 * signal_price r + 4/10 * competitor_target r

/-- `app.py` line 126: `recommended_price = max(recommended_price,
min_price_allowed)` — the final floored recommendation. -/
def recommended_price (r : MetricsRow) : ℚ :=
  max (blended_price r) (min_price_allowed r)

/-- `app.py` line 128: `recommended_margin = (recommended_price -
total_cost) / recommended_price`, with no zero-division guard. -/
def recommended_margin (r : MetricsRow) : ℚ :=
  (recommended_price r - total_cost r) / recommended_price r

/-- The three risk labels produced by `app.py` lines 133–137. -/
inductive RiskLevel where
  | LOW
  | MEDIUM
  | HIGH
deriving DecidableEq

/-- `app.py` line 134, second disjunct: `not pd.isna(ads_acos) and
ads_acos > 40`. -/
def acos_over_40 (r : MetricsRow) : Bool :=
  match r.acos_clicks_14d with
  | some a => decide (40 < a)
  | none => false

/-- `app.py` line 136: `not pd.isna(days_supply) and days_supply < 20`. -/
def days_under_20 (r : MetricsRow) : Bool :=
  match r.days_of_supply with
  | some d => decide (d < 20)
  | none => false

/-- `app.py` lines 133–137: risk label, first matching rule wins. -/
def risk_level (r : MetricsRow) : RiskLevel :=
  if decide (1/5 * total_cost r < return_risk_load r) || acos_over_40 r then .HIGH
  else if days_under_20 r then .MEDIUM
  else .LOW

/-- `app.py` lines 162–169: the rationale list, built by appending in the
fixed order inventory, ads, risk, competitor, with a fallback string when
nothing fired. -/
def reason (r : MetricsRow) : List String :=
  let l :=
    (if 0 < inventory_signal r then ["Low inventory → price increased slightly"]
     else if inventory_signal r < 0 then ["High inventory → price reduced slightly"]
     else [])
    ++ (if 0 < ads_signal r then ["High ACOS → price increased to protect margin"]
        else if ads_signal r < 0 then ["Efficient ads → price optimized for volume"]
        else [])
    ++ (if 0 < risk_signal r then ["High returns → risk-adjusted pricing"] else [])
    ++ (match r.avg_competitor_price with
        | some _ => ["Price aligned with competitor market"]
        | none => [])
  if l = [] then ["Price optimized to reach target margin safely"] else l

/-- The concrete scenario row of the spec: cost 10, FBA fee 3, storage
fee 1, handling cost 1, margins 10 % and 25 %, current price 18, 15 days
of supply, competitor average 22, 100 units shipped, 5 returns,
ACOS 50. -/
def row5 : MetricsRow :=
  ⟨some 10, some 3, some 1, some 1, some 10, some 25, some 18, some 15,
   some 22, some 100, some 5, some 50⟩

/-- A fully absent row: every column missing, so every default applies. -/
def rowZero : MetricsRow :=
  ⟨none, none, none, none, none, none, none, none, none, none, none, none⟩

/-- A row with heavy returns: 5 returns against 0 units shipped. -/
def rowRisky : MetricsRow :=
  ⟨some 10, none, none, none, none, none, some 12, none, none, some 0,
   some 5, none⟩

/-- A row whose target gross margin is exactly 100 %. -/
def rowM100 : MetricsRow :=
  ⟨some 10, some 3, some 1, some 1, some 10, some 100, some 18, none,
   none, some 100, some 5, none⟩

/-- `r` with its competitor-average column replaced, every other column
unchanged. -/
def with_avg (r : MetricsRow) (a : Option ℚ) : MetricsRow :=
  ⟨r.cost, r.fba_fee, r.storage_fee, r.handling_cost,
   r.minimum_acceptable_margin_pct, r.target_gross_margin_pct,
   r.current_price, r.days_of_supply, a,
   r.units_shipped_t90, r.returns_t90, r.acos_clicks_14d⟩

/-- Step 11 of the spec, stated on its own: the strings whose conditions
hold, appended in the fixed order inventory, ads, risk, competitor (the
fallback string is not part of this list). -/
def rationale_fired (r : MetricsRow) : List String :=
  (if 0 < inventory_signal r then ["Low inventory → price increased slightly"]
   else if inventory_signal r < 0 then ["High inventory → price reduced slightly"]
   else [])
  ++ (if 0 < ads_signal r then ["High ACOS → price increased to protect margin"]
      else if ads_signal r < 0 then ["Efficient ads → price optimized for volume"]
      else [])
  ++ (if 0 < risk_signal r then ["High returns → risk-adjusted pricing"] else [])
  ++ (match r.avg_competitor_price with
      | some _ => ["Price aligned with competitor market"]
      | none => [])

/-- The boolean ACOS test of line 134 holds exactly when the column is
present with a value above 40. -/
lemma acos_over_40_iff (r : MetricsRow) :
    acos_over_40 r = true ↔ ∃ a, r.acos_clicks_14d = some a ∧ 40 < a := by
  cases h : r.acos_clicks_14d <;> simp [acos_over_40, h]

/-- The boolean days-of-supply test of line 136 holds exactly when the
column is present with a value below 20. -/
lemma days_under_20_iff (r : MetricsRow) :
    days_under_20 r = true ↔ ∃ d, r.days_of_supply = some d ∧ d < 20 := by
  cases h : r.days_of_supply <;> simp [days_under_20, h]

/-- C1: margin floor invariant — for every input row the recommended
price is at least `min_price_allowed = total_cost / (1 − min_margin)`,
even after the competitor blend, because line 126 takes the maximum with
the floor as its very last step. -/
theorem margin_floor (r : MetricsRow) :
    min_price_allowed r = total_cost r / (1 - min_margin r) ∧
    total_cost r / (1 - min_margin r) ≤ recommended_price r := by
  refine ⟨rfl, ?_⟩
  rw [recommended_price]
  exact le_max_right _ _

/-- C2: with `Target_Gross_Margin_% = 100` the code computes straight
through the zero denominator of line 73 instead of signalling any
configuration error — in this rational embedding the division by zero
collapses to the junk value 0 (numpy float64 produces `inf` there), so
the "target price" lands strictly below the total cost and no rejection
ever happens. -/
theorem margin100_no_rejection :
    target_margin rowM100 = 1 ∧ total_cost rowM100 = 15 ∧
    target_price rowM100 = 0 ∧ target_price rowM100 < total_cost rowM100 := by
  refine ⟨?_, ?_, ?_, ?_⟩ <;>
    norm_num [target_margin, total_cost, target_price, rowM100]

/-- C3 counterexample: the all-absent row has `total_cost = 0 ≥ 0` and
both margins (the defaults 10 % and 25 %) below 100 %, yet the engine's
recommended price is 0, not strictly positive — so Step 9's division
`(recommended_price − total_cost) / recommended_price` does divide by
zero on this row, refuting the claim as stated. -/
theorem step9_positivity_cex :
    0 ≤ total_cost rowZero ∧ min_margin rowZero < 1 ∧
    target_margin rowZero < 1 ∧ ¬ 0 < recommended_price rowZero := by
  refine ⟨?_, ?_, ?_, ?_⟩ <;>
    norm_num [recommended_price, blended_price, signal_price, base, target_price,
      min_price_allowed, total_cost, min_margin, target_margin, inventory_signal,
      ads_signal, risk_signal, return_risk_load, competitor_target, current_price,
      rowZero]

/-- C3 amended: for every row with strictly positive total cost and both
margins below 100 %, the recommended price of Steps 7–8 is strictly
positive (hence nonzero), so Step 9 never divides by zero. -/
theorem step9_positivity (r : MetricsRow) (h0 : 0 < total_cost r)
    (hm : min_margin r < 1) (_ht : target_margin r < 1) :
    0 < recommended_price r ∧ recommended_price r ≠ 0 := by
  have hp : 0 < min_price_allowed r := by
    rw [min_price_allowed]
    exact div_pos h0 (by linarith)
  have hrec : 0 < recommended_price r := by
    rw [recommended_price]
    exact lt_of_lt_of_le hp (le_max_right _ _)
  exact ⟨hrec, ne_of_gt hrec⟩

/-- C3 witness: the concrete scenario row satisfies the amended
hypotheses and its recommended price is indeed positive. -/
theorem step9_positivity_witness :
    0 < total_cost row5 ∧ min_margin row5 < 1 ∧ target_margin row5 < 1 ∧
    (0 < recommended_price row5 ∧ recommended_price row5 ≠ 0) :=
  ⟨by norm_num [total_cost, row5], by norm_num [min_margin, row5],
   by norm_num [target_margin, row5],
   step9_positivity row5 (by norm_num [total_cost, row5])
     (by norm_num [min_margin, row5]) (by norm_num [target_margin, row5])⟩

/-- C4: the current-margin zero-guard of line 55 — a zero current price
yields margin exactly 0, and a positive current price yields the general
formula `(current_price − total_cost) / current_price`. -/
theorem current_margin_cases (r : MetricsRow) :
    (current_price r = 0 → current_margin r = 0) ∧
    (0 < current_price r →
      current_margin r = (current_price r - total_cost r) / current_price r) := by
  constructor
  · intro h
    simp [current_margin, h]
  · intro h
    rw [current_margin, if_neg (ne_of_gt h)]

/-- C4 witness: the all-absent row has current price 0 and the engine
reports current margin exactly 0 on it. -/
theorem current_margin_cases_witness :
    current_price rowZero = 0 ∧ current_margin rowZero = 0 :=
  ⟨by norm_num [current_price, rowZero],
   (current_margin_cases rowZero).1 (by norm_num [current_price, rowZero])⟩

/-- C5: the concrete scenario — cost 10 + fees 3/1/1, margins 10 %/25 %,
15 days of supply, ACOS 50, 100 units / 5 returns, competitor average 22,
current price 18.  The engine computes total cost 15, floor 50/3 (which
rounds to 16.6667 at four decimals), target price 20, signals +0.05,
+0.05 and 0, competitor target 20.8, recommended price 21.55, risk HIGH,
and exactly the three expected rationale strings. -/
theorem concrete_scenario :
    total_cost row5 = 15 ∧
    min_price_allowed row5 = 50/3 ∧
    ⌊min_price_allowed row5 * 10000 + 1/2⌋ = 166667 ∧
    target_price row5 = 20 ∧
    inventory_signal row5 = 1/20 ∧
    ads_signal row5 = 1/20 ∧
    risk_signal row5 = 0 ∧
    competitor_target row5 = 104/5 ∧
    recommended_price row5 = 431/20 ∧
    risk_level row5 = .HIGH ∧
    reason row5 = ["Low inventory → price increased slightly",
      "High ACOS → price increased to protect margin",
      "Price aligned with competitor market"] := by
  have hmpa : min_price_allowed row5 = 50/3 := by
    norm_num [min_price_allowed, total_cost, min_margin, row5]
  refine ⟨?_, hmpa, ?_, ?_, ?_, ?_, ?_, ?_, ?_, ?_, ?_⟩
  · norm_num [total_cost, row5]
  · rw [hmpa]
    norm_num [Int.floor_eq_iff]
  · norm_num [target_price, total_cost, target_margin, row5]
  · norm_num [inventory_signal, row5]
  · norm_num [ads_signal, row5]
  · norm_num [risk_signal, return_risk_load, total_cost, row5]
  · norm_num [competitor_target, current_price, row5]
  · norm_num [recommended_price, blended_price, signal_price, base, target_price,
      min_price_allowed, total_cost, min_margin, target_margin, inventory_signal,
      ads_signal, risk_signal, return_risk_load, competitor_target, current_price,
      row5]
  · norm_num [risk_level, acos_over_40, days_under_20, return_risk_load,
      total_cost, row5]
  · norm_num [reason, inventory_signal, ads_signal, risk_signal, return_risk_load,
      total_cost, row5]
    intro h
    simp at h

/-- C6: risk classification, first matching rule wins in the written
order — HIGH when the return-risk load exceeds 0.2 · total_cost or the
ACOS column is present and above 40; otherwise MEDIUM when days of
supply is present and below 20; otherwise LOW. -/
theorem risk_classification_order (r : MetricsRow) :
    ((1/5 * total_cost r < return_risk_load r ∨
        (∃ a, r.acos_clicks_14d = some a ∧ 40 < a)) → risk_level r = .HIGH) ∧
    (¬ (1/5 * total_cost r < return_risk_load r ∨
        (∃ a, r.acos_clicks_14d = some a ∧ 40 < a)) →
      (∃ d, r.days_of_supply = some d ∧ d < 20) → risk_level r = .MEDIUM) ∧
    (¬ (1/5 * total_cost r < return_risk_load r ∨
        (∃ a, r.acos_clicks_14d = some a ∧ 40 < a)) →
      ¬ (∃ d, r.days_of_supply = some d ∧ d < 20) → risk_level r = .LOW) := by
  refine ⟨?_, ?_, ?_⟩
  · intro h
    have hb : (decide (1/5 * total_cost r < return_risk_load r) || acos_over_40 r) = true := by
      rw [Bool.or_eq_true]
      rcases h with h | h
      · exact Or.inl (decide_eq_true h)
      · exact Or.inr ((acos_over_40_iff r).mpr h)
    rw [risk_level, hb]
    rfl
  · intro h hdd
    rw [not_or] at h
    obtain ⟨h1, h2⟩ := h
    have e2 : acos_over_40 r = false := by
      cases hb : acos_over_40 r
      · rfl
      · exact absurd ((acos_over_40_iff r).mp hb) h2
    have hb : (decide (1/5 * total_cost r < return_risk_load r) || acos_over_40 r) = false := by
      rw [Bool.or_eq_false_iff]
      exact ⟨decide_eq_false h1, e2⟩
    have e4 : days_under_20 r = true := (days_under_20_iff r).mpr hdd
    rw [risk_level, hb, e4]
    rfl
  · intro h hdd
    rw [not_or] at h
    obtain ⟨h1, h2⟩ := h
    have e2 : acos_over_40 r = false := by
      cases hb : acos_over_40 r
      · rfl
      · exact absurd ((acos_over_40_iff r).mp hb) h2
    have e3 : days_under_20 r = false := by
      cases hb : days_under_20 r
      · rfl
      · exact absurd ((days_under_20_iff r).mp hb) hdd
    have hb : (decide (1/5 * total_cost r < return_risk_load r) || acos_over_40 r) = false := by
      rw [Bool.or_eq_false_iff]
      exact ⟨decide_eq_false h1, e2⟩
    rw [risk_level, hb, e3]
    rfl

/-- C6 witness: the concrete scenario row matches the HIGH rule through
its ACOS of 50 and is classified HIGH. -/
theorem risk_classification_order_witness : risk_level row5 = .HIGH :=
  (risk_classification_order row5).1 (Or.inr ⟨50, rfl, by norm_num⟩)

/-- C7: the rationale equals the list of fired strings when at least one
condition held and is exactly the single fallback string otherwise, and
it always contains at least one entry. -/
theorem rationale_spec (r : MetricsRow) :
    reason r = (if rationale_fired r = []
      then ["Price optimized to reach target margin safely"]
      else rationale_fired r) ∧
    1 ≤ (reason r).length := by
  have hr : reason r = if rationale_fired r = []
      then ["Price optimized to reach target margin safely"]
      else rationale_fired r := rfl
  refine ⟨hr, ?_⟩
  rw [hr]
  split
  · simp
  · rename_i h
    exact List.length_pos.mpr h

/-- C8: the zero-cost edge — when all four cost components are 0 or
absent (and both margins are valid, i.e. below 100 %), the engine
reports total cost 0, minimum allowed price 0 and target price 0. -/
theorem zero_cost_edge (r : MetricsRow)
    (hc : r.cost.getD 0 = 0) (hf : r.fba_fee.getD 0 = 0)
    (hs : r.storage_fee.getD 0 = 0) (hh : r.handling_cost.getD 0 = 0)
    (_hm : min_margin r < 1) (_ht : target_margin r < 1) :
    total_cost r = 0 ∧ min_price_allowed r = 0 ∧ target_price r = 0 := by
  have h0 : total_cost r = 0 := by
    rw [total_cost, hc, hf, hs, hh]
    ring
  refine ⟨h0, ?_, ?_⟩
  · rw [min_price_allowed, h0, zero_div]
  · rw [target_price, h0, zero_div]

/-- C8 witness: the all-absent row has every cost component defaulted to
0 and default margins 10 % and 25 %, and the engine reports all three
derived prices as 0. -/
theorem zero_cost_edge_witness :
    rowZero.cost.getD 0 = 0 ∧ min_margin rowZero < 1 ∧ target_margin rowZero < 1 ∧
    (total_cost rowZero = 0 ∧ min_price_allowed rowZero = 0 ∧
      target_price rowZero = 0) :=
  ⟨rfl, by norm_num [min_margin, rowZero], by norm_num [target_margin, rowZero],
   zero_cost_edge rowZero rfl rfl rfl rfl
     (by norm_num [min_margin, rowZero]) (by norm_num [target_margin, rowZero])⟩

/-- C9: signal-to-risk coupling — whenever the return-risk signal or the
ads signal equals +0.05, the row is classified HIGH, because each
signal's firing condition is a disjunct of the HIGH rule of line 134. -/
theorem signal_risk_coupling (r : MetricsRow)
    (h : risk_signal r = 1/20 ∨ ads_signal r = 1/20) :
    risk_level r = .HIGH := by
  rcases h with h | h
  · have hc : 1/5 * total_cost r < return_risk_load r := by
      by_contra hc
      rw [risk_signal, if_neg hc] at h
      norm_num at h
    have hb : (decide (1/5 * total_cost r < return_risk_load r) || acos_over_40 r) = true := by
      rw [Bool.or_eq_true]
      exact Or.inl (decide_eq_true hc)
    rw [risk_level, hb]
    rfl
  · have hc : acos_over_40 r = true := by
      cases ha : r.acos_clicks_14d with
      | none =>
        simp only [ads_signal, ha] at h
        norm_num at h
      | some a =>
        simp only [ads_signal, ha] at h
        by_cases h40 : 40 < a
        · simp [acos_over_40, ha, h40]
        · rw [if_neg h40] at h
          split_ifs at h <;> norm_num at h
    have hb : (decide (1/5 * total_cost r < return_risk_load r) || acos_over_40 r) = true := by
      rw [Bool.or_eq_true]
      exact Or.inr hc
    rw [risk_level, hb]
    rfl

/-- C9 witness: the heavy-returns row fires the +0.05 return-risk signal
and is classified HIGH. -/
theorem signal_risk_coupling_witness :
    risk_signal rowRisky = 1/20 ∧ risk_level rowRisky = .HIGH :=
  ⟨by norm_num [risk_signal, return_risk_load, total_cost, rowRisky],
   signal_risk_coupling rowRisky
     (Or.inl (by norm_num [risk_signal, return_risk_load, total_cost, rowRisky]))⟩

/-- C10: competitor monotonicity — with every other column fixed, raising
the competitor average never lowers the recommended price: the blend adds
0.4 · 0.7 · avg_competitor_price linearly and the final floor `max`
preserves the ordering. -/
theorem competitor_monotone (r : MetricsRow) (a b : ℚ) (hab : a ≤ b) :
    recommended_price (with_avg r (some a)) ≤ recommended_price (with_avg r (some b)) := by
  have hsig : signal_price (with_avg r (some a)) = signal_price (with_avg r (some b)) := rfl
  have hmpa : min_price_allowed (with_avg r (some a)) = min_price_allowed (with_avg r (some b)) := rfl
  have hct : competitor_target (with_avg r (some a)) ≤
      competitor_target (with_avg r (some b)) := by
    show 7/10 * a + 3/10 * current_price (with_avg r (some a)) ≤
      7/10 * b + 3/10 * current_price (with_avg r (some b))
    have hcp : current_price (with_avg r (some a)) = current_price (with_avg r (some b)) := rfl
    rw [hcp]
    linarith
  rw [recommended_price, recommended_price, blended_price, blended_price, hsig, hmpa]
  exact max_le_max (by linarith) le_rfl

/-- C10 witness: on the concrete scenario row, raising the competitor
average from 22 to 30 does not lower the recommendation. -/
theorem competitor_monotone_witness :
    (22:ℚ) ≤ 30 ∧
    recommended_price (with_avg row5 (some 22)) ≤
      recommended_price (with_avg row5 (some 30)) :=
  ⟨by norm_num, competitor_monotone row5 22 30 (by norm_num)⟩

end PricingTool
